import Mathlib

/-!
Shallow embedding of the IPTV Telegram bot (src/bot.py, CSV-master variant):
the channel catalog backed by channels.csv, the customer store backed by
customers.json, the M3U playlist generator, and the command handlers for the
mutating commands (add, remove, create, revoke).

File I/O is modelled by an explicit `FileState` for the master CSV; the
customer JSON file is modelled as the customer association list held in
`BotState` (the file is the sole store and every handler reloads it, so the
list is exactly the file's contents).  Wall-clock time and the random token
from secrets.token_urlsafe are passed in as parameters.
-/

/-- Python whitespace characters removed by str.strip (the ASCII subset;
Python additionally strips rare Unicode spaces, which no claim involves). -/
def pySpace (c : Char) : Bool :=
  c == ' ' || c == '\t' || c == '\n' || c == '\r' || c == '\x0b' || c == '\x0c'

/-- Drop leading and trailing characters satisfying p from a character list. -/
def stripL (p : Char → Bool) (l : List Char) : List Char :=
  ((l.dropWhile p).reverse.dropWhile p).reverse

/-- Model of Python str.strip: drop leading and trailing whitespace. -/
def pyStrip (s : String) : String :=
  ⟨stripL pySpace s.data⟩

/-- Model of Python str.lower: lowercase character by character (ASCII;
Python also lowercases non-ASCII letters, which the claims restrict away). -/
def pyLower (s : String) : String :=
  ⟨s.data.map Char.toLower⟩

/-- Model of Python str.startswith. -/
def pyStartsWith (s pre : String) : Bool :=
  pre.data.isPrefixOf s.data

/-- One data row of channels.csv: the eight fields written by csv.writer in
add_channel_to_csv and remove_channel_from_csv, in header order
name, url, group, country, language, quality, category, tags. -/
structure CsvRow where
  name : String
  url : String
  group : String
  country : String
  language : String
  quality : String
  category : String
  tags : String
deriving DecidableEq, Repr

/-- A channel record as produced by load_channels_from_csv (the dict built
from a DictReader row). -/
structure Channel where
  name : String
  url : String
  group : String
  country : String
  language : String
  quality : String
  category : String
  tags : String
deriving DecidableEq, Repr

/-- State of the master CSV file.  `absent`: no file on disk.
`corrupt pre`: a file the row loop fails on partway (IO error, decode
error, or a short row whose None field makes .strip() raise): `pre` is the
sequence of data rows successfully parsed before the failure point, which
is exactly what the broad except path hands back; `pre = []` when opening
the file or reading the header already fails.  `table rows`: a well-formed
CSV consisting of the fixed header line followed by `rows`. -/
inductive FileState where
  | absent : FileState
  | corrupt (pre : List CsvRow) : FileState
  | table (rows : List CsvRow) : FileState
deriving DecidableEq, Repr

/-- The fixed header row written whenever the code (re)creates channels.csv. -/
def csvHeader : List String :=
  ["name", "url", "group", "country", "language", "quality", "category", "tags"]

/-- The fields of a data row in the order csv.writer writes them. -/
def fieldsOfRow (r : CsvRow) : List String :=
  [r.name, r.url, r.group, r.country, r.language, r.quality, r.category, r.tags]

/-- The lines of the master CSV as on disk: header then data rows.  For an
absent file, and for a corrupt file whose exact bytes the code never
re-serialises, no line content is modelled. -/
def fileLines : FileState → List (List String)
  | .absent => []
  | .corrupt _ => []
  | .table rows => csvHeader :: rows.map fieldsOfRow

/-- Turn one DictReader row into the channel dict, as load_channels_from_csv
does: name, url and group are stripped, the remaining fields are taken as
stored.  With the fixed 8-column header every key is present in the row dict,
so the .get defaults ('General', 'HD') never fire for a table row. -/
def parseRow (r : CsvRow) : Channel :=
  { name := pyStrip r.name
    url := pyStrip r.url
    group := pyStrip r.group
    country := r.country
    language := r.language
    quality := r.quality
    category := r.category
    tags := r.tags }

/-- The row csv.writer emits for a loaded channel dict in
remove_channel_from_csv's rewrite loop (every key is present in the dict, so
the .get defaults never fire). -/
def rowOfChannel (ch : Channel) : CsvRow :=
  ⟨ch.name, ch.url, ch.group, ch.country, ch.language, ch.quality, ch.category, ch.tags⟩

/-- load_channels_from_csv.  Returns the loaded channel list together with
the file state after the call: reading a present file leaves it unchanged;
a missing file is created with just the header (the else branch); a file
that fails partway is swallowed by the broad except branch, which returns
the channels appended to the accumulator before the failure — the prefix
parsed so far, empty when the failure precedes the first data row.  The
function is total: no case raises to the caller. -/
def load_channels_from_csv : FileState → List Channel × FileState
  | .absent => ([], .table [])
  | .corrupt pre => (pre.map parseRow, .corrupt pre)
  | .table rows => (rows.map parseRow, .table rows)

/-- add_channel_to_csv.  Loads the current channels (with load's side
effect), rejects a case-insensitive duplicate of an existing loaded name
before any write, otherwise appends the one new row.  The non-table
fallback conservatively models the append attempt on a corrupt file as the
except branch returning False with the file unchanged; no claim theorem
exercises that branch. -/
def add_channel_to_csv (name url : String) (group : String := "General")
    (country : String := "") (language : String := "") (quality : String := "HD")
    (category : String := "") (tags : String := "") (fs : FileState) :
    Bool × FileState :=
  let loaded := load_channels_from_csv fs
  if loaded.1.any (fun ch => pyLower ch.name == pyLower name) then
    (false, loaded.2)
  else
    match loaded.2 with
    | .table rows =>
        (true, .table (rows ++ [⟨name, url, group, country, language, quality, category, tags⟩]))
    | fs2 => (false, fs2)

/-- remove_channel_from_csv.  Loads the channels, filters out every loaded
channel whose lowercased name equals the lowercased argument, returns False
without writing when nothing was dropped, and otherwise rewrites the file as
header plus the kept channels.  The non-table fallback conservatively
models the rewrite attempt on a corrupt file as the except branch returning
False with the file unchanged; no claim theorem exercises that branch. -/
def remove_channel_from_csv (name : String) (fs : FileState) : Bool × FileState :=
  let loaded := load_channels_from_csv fs
  let new_channels := loaded.1.filter (fun ch => !(pyLower ch.name == pyLower name))
  if new_channels.length == loaded.1.length then
    (false, loaded.2)
  else
    match loaded.2 with
    | .table _ => (true, .table (new_channels.map rowOfChannel))
    | fs2 => (false, fs2)

/-- The channel collection an observer obtains from the file state (the
first component of a load). -/
def channelsOf (fs : FileState) : List Channel :=
  (load_channels_from_csv fs).1

/-- Lookup in a Python dict modelled as an association list (first match;
keys are unique by construction of dictInsert). -/
def dictGet? {α : Type} (d : List (String × α)) (k : String) : Option α :=
  (d.find? (fun p => p.1 == k)).map (fun p => p.2)

/-- Python dict assignment d[k] = v: overwrite an existing binding in place,
else append. -/
def dictInsert {α : Type} (d : List (String × α)) (k : String) (v : α) :
    List (String × α) :=
  if d.any (fun p => p.1 == k) then
    d.map (fun p => if p.1 == k then (k, v) else p)
  else
    d ++ [(k, v)]

/-- Python del d[k]. -/
def dictErase {α : Type} (d : List (String × α)) (k : String) :
    List (String × α) :=
  d.filter (fun p => !(p.1 == k))

/-- Python substring test `sub in hay` on strings. -/
def containsSubstr (hay sub : String) : Bool :=
  hay.data.tails.any (fun t => sub.data.isPrefixOf t)

/-- One `if key in criteria and criteria[key]: filtered = [...]` block of
filter_channels: apply the filter when the key is present with a truthy
(non-empty) value, otherwise keep the list. -/
def applyCriterion (criteria : List (String × String)) (key : String)
    (pred : String → Channel → Bool) (l : List Channel) : List Channel :=
  match dictGet? criteria key with
  | some v => if v = "" then l else l.filter (pred v)
  | none => l

/-- filter_channels.  Loads the channels (with load's side effect) and
applies the six optional criteria in sequence, one applyCriterion block per
source block, in source order.  Group, country, language, quality and
category compare for string equality; tags lowercases the criterion value
and tests case-insensitive substring containment. -/
def filter_channels (criteria : List (String × String)) (fs : FileState) :
    List Channel × FileState :=
  let loaded := load_channels_from_csv fs
  let f1 := applyCriterion criteria "group" (fun v ch => ch.group == v) loaded.1
  let f2 := applyCriterion criteria "country" (fun v ch => ch.country == v) f1
  let f3 := applyCriterion criteria "language" (fun v ch => ch.language == v) f2
  let f4 := applyCriterion criteria "quality" (fun v ch => ch.quality == v) f3
  let f5 := applyCriterion criteria "category" (fun v ch => ch.category == v) f4
  let f6 := applyCriterion criteria "tags"
    (fun v ch => containsSubstr (pyLower ch.tags) (pyLower v)) f5
  (f6, loaded.2)

/-- A naive Python datetime, reduced to what the code observes: the calendar
day index and the second within the day.  datetime.now() + timedelta(days=n)
advances the calendar day by exactly n for a naive datetime, which addDays
mirrors. -/
structure PyDateTime where
  day : Int
  secOfDay : Nat
deriving DecidableEq, Repr

/-- datetime + timedelta(days = n). -/
def addDays (t : PyDateTime) (n : Int) : PyDateTime :=
  { t with day := t.day + n }

/-- strftime with a date-only format: the rendering depends only on the
calendar day.  The civil Y-m-d digits are abstracted as the decimal day
index; the claims concern which date is shown, not its digits. -/
def strftime_date (t : PyDateTime) : String :=
  toString t.day

/-- strftime with the full date-time format: renders day and second. -/
def strftime_datetime (t : PyDateTime) : String :=
  toString t.day ++ " " ++ toString t.secOfDay

/-- datetime.isoformat, abstracted like strftime_date but keeping the time
component. -/
def isoformat (t : PyDateTime) : String :=
  toString t.day ++ "T" ++ toString t.secOfDay

/-- datetime.timestamp: seconds since the epoch (timezone offset ignored;
no claim observes the absolute value). -/
def timestampOf (t : PyDateTime) : Int :=
  t.day * 86400 + t.secOfDay

/-- One customer record of customers.json, as built by create_customer. -/
structure Customer where
  username : String
  created : String
  expires : Int
  expires_date : String
  filters : List (String × String)
  active : Bool
  playlist_count : Nat
deriving DecidableEq, Repr

/-- The value create_customer returns: token, record, expiry datetime. -/
structure CreateResult where
  token : String
  customer : Customer
  expires : PyDateTime
deriving DecidableEq, Repr

/-- create_customer: build the record, store it under the fresh token and
persist.  The token (secrets.token_urlsafe) and the clock are parameters. -/
def create_customer (username : String) (days : Int)
    (filters : Option (List (String × String)))
    (customers : List (String × Customer)) (token : String) (now : PyDateTime) :
    CreateResult × List (String × Customer) :=
  let expires := addDays now days
  let customer : Customer :=
    { username := username
      created := isoformat now
      expires := timestampOf expires
      expires_date := isoformat expires
      filters := filters.getD []
      active := true
      playlist_count := 0 }
  ({ token := token, customer := customer, expires := expires },
   dictInsert customers token customer)

/-- Python repr of a string-to-string dict, used when the handler interpolates
a non-empty filters dict into the playlist text. -/
def pyDictRepr (d : List (String × String)) : String :=
  "\x7b" ++ String.intercalate ", "
    (d.map (fun p => "\x27" ++ p.1 ++ "\x27: \x27" ++ p.2 ++ "\x27")) ++ "\x7d"

/-- The f-string fragment `filters if filters else 'All channels'`. -/
def filtersDisplay (filters : List (String × String)) : String :=
  if filters.isEmpty then "All channels" else pyDictRepr filters

/-- The EXTINF directive line written for one channel. -/
def extinfLine (ch : Channel) : String :=
  "#EXTINF:-1 tvg-logo=\"\" group-title=\"" ++ ch.group ++ "\"," ++ ch.name

/-- The lines of the generated M3U document: the nine header lines of the
triple-quoted f-string, then one directive line and one URL line per
filtered channel.  Every line is newline-terminated in the built string, so
the document is exactly the concatenation m3uDoc below. -/
def build_m3u (username : String) (now expires : PyDateTime) (token : String)
    (filters : List (String × String)) (filtered : List Channel) : List String :=
  ["#EXTM3U",
   "# IPTV Playlist for: " ++ username,
   "# Generated: " ++ strftime_datetime now,
   "# Expires: " ++ strftime_date expires,
   "# Token: " ++ token,
   "# Filters: " ++ filtersDisplay filters,
   "#",
   "# This playlist contains " ++ toString filtered.length ++ " channels",
   "#"]
  ++ filtered.flatMap (fun ch => [extinfLine ch, ch.url])

/-- The generated M3U document as a single string: each line followed by a
newline, exactly as the handler concatenates it. -/
def m3uDoc (lines : List String) : String :=
  String.join (lines.map (fun l => l ++ "\n"))

/-- The whole bot state the mutating handlers touch: the master CSV and the
customers.json contents. -/
structure BotState where
  fs : FileState
  customers : List (String × Customer)
deriving DecidableEq, Repr

/-- A reply delivered back through the router: a text message, or a document
upload with filename and caption. -/
inductive Reply where
  | text (s : String) : Reply
  | document (content filename caption : String) : Reply
deriving DecidableEq, Repr

/-- Parse `filter=value` arguments as the create handler does: split each
argument containing an equals sign at its first occurrence and assign into
the dict. -/
def parseFilters (args : List String) : List (String × String) :=
  args.foldl (fun d arg =>
    if arg.contains '=' then
      let parts := arg.splitOn "="
      dictInsert d (parts.getD 0 "") (String.intercalate "=" parts.tail)
    else d) []

/-- Handler for /add.  The admin check comes first; then argument count;
then the insert.  The file state returned by add_channel_to_csv is kept in
both reply branches (load's create-if-absent side effect persists even when
the insert is rejected). -/
def add_channel (caller : Int) (admins : List Int) (args : List String)
    (st : BotState) : List Reply × BotState :=
  if !(admins.contains caller) then
    ([.text "⛔ Unauthorized"], st)
  else if args.length < 2 then
    ([.text ("Usage: /add NAME URL [GROUP]\n" ++
             "Example: /add BBC http://example.com/bbc.m3u8 News")], st)
  else
    let name := args.getD 0 ""
    let url := args.getD 1 ""
    let group := if args.length > 2 then args.getD 2 "" else "General"
    let res := add_channel_to_csv name url group "" "" "HD" "" "" st.fs
    if res.1 then
      ([.text ("✅ Added to CSV: " ++ name)], { st with fs := res.2 })
    else
      ([.text ("❌ Channel \x27" ++ name ++ "\x27 already exists")], { st with fs := res.2 })

/-- Handler for /remove: admin check, then argument check, then the delete. -/
def remove_channel (caller : Int) (admins : List Int) (args : List String)
    (st : BotState) : List Reply × BotState :=
  if !(admins.contains caller) then
    ([.text "⛔ Unauthorized"], st)
  else if args.isEmpty then
    ([.text "Usage: /remove NAME"], st)
  else
    let name := args.getD 0 ""
    let res := remove_channel_from_csv name st.fs
    if res.1 then
      ([.text ("✅ Removed from CSV: " ++ name)], { st with fs := res.2 })
    else
      ([.text ("❌ Channel \x27" ++ name ++ "\x27 not found")], { st with fs := res.2 })

/-- Caption of the playlist document message. -/
def createCaption (username : String) (expires : PyDateTime) (nChannels : Nat)
    (token : String) (filters : List (String × String)) : String :=
  "✅ **Customer Created**\n\n" ++
  "👤 **User:** " ++ username ++ "\n" ++
  "⏰ **Expires:** " ++ strftime_date expires ++ "\n" ++
  "📺 **Channels:** " ++ toString nChannels ++ "\n" ++
  "🔑 **Token:** " ++ token.take 8 ++ "...\n\n" ++
  "**Filters:** " ++ filtersDisplay filters

/-- The follow-up text message carrying the full token. -/
def tokenMessage (token : String) : String :=
  "📝 **Customer Token:**\n```\n" ++ token ++ "\n```\n" ++
  "Save this to manage this customer."

/-- Handler for /create.  Admin check first, then argument count, then
int(args[1]) — whose ValueError on a non-numeric argument propagates,
modelled as the .error result with the state untouched — then customer
creation, channel filtering and playlist rendering.  The two datetime.now()
calls of the handler body are modelled as the same instant `now`. -/
def create_customer_playlist (caller : Int) (admins : List Int)
    (args : List String) (st : BotState) (now : PyDateTime) (token : String) :
    Except Unit (List Reply) × BotState :=
  if !(admins.contains caller) then
    (.ok [.text "⛔ Unauthorized"], st)
  else if args.length < 3 then
    (.ok [.text ("Usage: /create USERNAME DAYS filter=value ...\n\n" ++
                 "Examples:\n" ++
                 "/create john 30 group=News\n" ++
                 "/create mary 15 country=UK language=English\n" ++
                 "/create sportsfan 7 group=Sports quality=FHD\n\n" ++
                 "Available filters: group, country, language, quality, category")], st)
  else
    match (args.getD 1 "").toInt? with
    | none => (.error (), st)
    | some days =>
        let username := args.getD 0 ""
        let filters := parseFilters (args.drop 2)
        let created := create_customer username days (some filters) st.customers token now
        let filtered := filter_channels filters st.fs
        let lines := build_m3u username now created.1.expires created.1.token filters filtered.1
        (.ok [.document (m3uDoc lines) (username ++ "_iptv.m3u")
                (createCaption username created.1.expires filtered.1.length created.1.token filters),
              .text (tokenMessage created.1.token)],
         { fs := filtered.2, customers := created.2 })

/-- Handler for /revoke: admin check, argument check, then lookup, delete
and persist. -/
def revoke_customer (caller : Int) (admins : List Int) (args : List String)
    (st : BotState) : List Reply × BotState :=
  if !(admins.contains caller) then
    ([.text "⛔ Unauthorized"], st)
  else if args.isEmpty then
    ([.text "Usage: /revoke TOKEN"], st)
  else
    let token := args.getD 0 ""
    match dictGet? st.customers token with
    | some cust =>
        ([.text ("✅ Revoked access for " ++ cust.username)],
         { st with customers := dictErase st.customers token })
    | none => ([.text "❌ Token not found"], st)

/-- Whether one optional criterion is satisfied, stated from the spec's
words: a criterion is supplied when its value is present and non-empty, and
an unsupplied criterion holds vacuously. -/
def critTest (o : Option String) (pred : String → Channel → Bool) (ch : Channel) :
    Bool :=
  match o with
  | some v => if v = "" then true else pred v ch
  | none => true

/-- The conjunction of the six filter criteria, stated from the spec's words:
all supplied criteria must hold (logical AND); group, country, language,
quality and category compare by exact string equality, tags by
case-insensitive substring containment. -/
def matchesCriteria (criteria : List (String × String)) (ch : Channel) : Bool :=
  ((((critTest (dictGet? criteria "group") (fun v ch => ch.group == v) ch &&
      critTest (dictGet? criteria "country") (fun v ch => ch.country == v) ch) &&
      critTest (dictGet? criteria "language") (fun v ch => ch.language == v) ch) &&
      critTest (dictGet? criteria "quality") (fun v ch => ch.quality == v) ch) &&
      critTest (dictGet? criteria "category") (fun v ch => ch.category == v) ch) &&
      critTest (dictGet? criteria "tags")
        (fun v ch => containsSubstr (pyLower ch.tags) (pyLower v)) ch

/-- The whole-collection rewrite of a channel list into the file, as the
rewrite loop of remove_channel_from_csv performs it (and as a sequence of
appends by add_channel_to_csv produces row for row). -/
def writeChannelRows (chs : List Channel) : FileState :=
  .table (chs.map rowOfChannel)

/-! ## Helper lemmas -/

theorem dropWhile_dropWhile_same {α : Type} (p : α → Bool) (l : List α) :
    (l.dropWhile p).dropWhile p = l.dropWhile p := by
  induction l with
  | nil => rfl
  | cons a t ih =>
    by_cases h : p a
    · simp [List.dropWhile_cons, h, ih]
    · simp [List.dropWhile_cons, h]

theorem dropWhile_head_false {α : Type} (p : α → Bool) (l : List α) (x : α)
    (xs : List α) (h : l.dropWhile p = x :: xs) : p x = false := by
  induction l with
  | nil => simp at h
  | cons a t ih =>
    by_cases ha : p a
    · rw [List.dropWhile_cons, if_pos ha] at h
      exact ih h
    · rw [List.dropWhile_cons, if_neg ha] at h
      cases h
      simpa using ha

theorem stripL_idem (p : Char → Bool) (l : List Char) :
    stripL p (stripL p l) = stripL p l := by
  unfold stripL
  set a := l.dropWhile p with ha
  have hsuffix : a.reverse.dropWhile p <:+ a.reverse := List.dropWhile_suffix p
  set b := (a.reverse.dropWhile p).reverse with hb
  have hbrev : b.reverse = a.reverse.dropWhile p := by
    rw [hb, List.reverse_reverse]
  have hbprefix : b <+: a := by
    rw [← List.reverse_suffix]
    rw [hbrev]
    exact hsuffix
  have hdropb : b.dropWhile p = b := by
    cases hba : a with
    | nil =>
      have : b = [] := by
        have := hbprefix
        rw [hba] at this
        exact List.prefix_nil.mp this
      rw [this]
      rfl
    | cons x xs =>
      have hx : p x = false := dropWhile_head_false p l x xs (ha ▸ hba)
      cases hbb : b with
      | nil => rfl
      | cons y ys =>
        have hy : y = x := by
          obtain ⟨t, ht⟩ := hbprefix
          rw [hbb, hba] at ht
          simpa using congrArg List.head? ht.symm |>.symm |> Option.some.inj
        rw [List.dropWhile_cons, hy, if_neg (by simp [hx])]
  have hdropbrev : b.reverse.dropWhile p = b.reverse := by
    rw [hbrev]
    exact dropWhile_dropWhile_same p a.reverse
  rw [hdropb, hdropbrev, List.reverse_reverse]

theorem pyStrip_idem (s : String) : pyStrip (pyStrip s) = pyStrip s :=
  congrArg String.mk (stripL_idem pySpace s.data)

theorem parseRow_rowOfChannel_parseRow (r : CsvRow) :
    parseRow (rowOfChannel (parseRow r)) = parseRow r := by
  simp [parseRow, rowOfChannel, pyStrip_idem]

theorem map_parseRow_rowOfChannel (l : List Channel)
    (h : ∀ ch ∈ l, parseRow (rowOfChannel ch) = ch) :
    (l.map rowOfChannel).map parseRow = l := by
  induction l with
  | nil => rfl
  | cons a t ih =>
    simp only [List.map_cons]
    rw [h a (by simp), ih (fun ch hch => h ch (by simp [hch]))]

theorem parsed_mem_fixed (rows : List CsvRow) (ch : Channel)
    (h : ch ∈ rows.map parseRow) : parseRow (rowOfChannel ch) = ch := by
  obtain ⟨r, _, rfl⟩ := List.mem_map.mp h
  exact parseRow_rowOfChannel_parseRow r

/-! ## Claim theorems -/

/-- C1: for every channel catalog state, inserting a channel whose name
equals an existing channel's name up to ASCII case fails (returns False,
the duplicate-key failure) and the persisted channel collection is exactly
the same as before the call. -/
theorem add_duplicate_rejected (rows : List CsvRow)
    (name url group country language quality category tags : String)
    (hdup : ∃ ch ∈ rows.map parseRow, pyLower ch.name = pyLower name) :
    add_channel_to_csv name url group country language quality category tags
      (.table rows) = (false, .table rows) := by
  obtain ⟨ch, hmem, heq⟩ := hdup
  have hany : (rows.map parseRow).any
      (fun ch => pyLower ch.name == pyLower name) = true :=
    List.any_eq_true.mpr ⟨ch, hmem, by simp [heq]⟩
  simp [add_channel_to_csv, load_channels_from_csv, hany]

theorem add_duplicate_rejected_witness :
    (∃ ch ∈ ([⟨"BBC", "http://b", "News", "", "", "HD", "", ""⟩] :
        List CsvRow).map parseRow, pyLower ch.name = pyLower "bbc") ∧
    add_channel_to_csv "bbc" "http://b2" "News" "" "" "HD" "" ""
        (.table [⟨"BBC", "http://b", "News", "", "", "HD", "", ""⟩]) =
      (false, .table [⟨"BBC", "http://b", "News", "", "", "HD", "", ""⟩]) :=
  ⟨by decide, add_duplicate_rejected _ _ _ _ _ _ _ _ _ (by decide)⟩

/-- C3 counterexample: an unparseable backing file that fails partway
through the row loop — e.g. the valid header, one valid row, then a short
row, where DictReader fills the missing fields with None and .strip()
raises inside the loop — makes load return the non-empty prefix parsed
before the failure, not the empty sequence. -/
theorem load_corrupt_returns_nonempty_prefix :
    load_channels_from_csv
        (.corrupt [⟨"BBC", "http://b", "News", "", "", "HD", "", ""⟩]) =
      ([⟨"BBC", "http://b", "News", "", "", "HD", "", ""⟩],
        .corrupt [⟨"BBC", "http://b", "News", "", "", "HD", "", ""⟩]) ∧
    (load_channels_from_csv
        (.corrupt [⟨"BBC", "http://b", "News", "", "", "HD", "", ""⟩])).1 ≠
      [] :=
  ⟨by decide, by decide⟩

/-- C3 amended: the channel load operation is total over every modelled
state of the backing file (the broad except means it never raises to its
caller); it returns the empty sequence when the backing file is absent or
fails before the first data row; and on a file that fails to parse partway
it returns exactly the prefix of records parsed before the failure, leaving
the file untouched. -/
theorem load_never_raises_empty_or_prefix :
    (load_channels_from_csv .absent).1 = [] ∧
    (load_channels_from_csv (.corrupt [])).1 = [] ∧
    (∀ pre : List CsvRow, load_channels_from_csv (.corrupt pre) =
      (pre.map parseRow, .corrupt pre)) ∧
    (∀ fs : FileState, ∃ out, load_channels_from_csv fs = out) :=
  ⟨rfl, rfl, fun _ => rfl, fun _ => ⟨_, rfl⟩⟩

/-- C10: loading with the backing file absent has a write side effect: it
creates the master CSV containing only the fixed header row while still
returning the empty sequence, so the on-disk state changes. -/
theorem load_absent_creates_header_file :
    load_channels_from_csv .absent = ([], .table []) ∧
    fileLines (.table []) = [csvHeader] ∧
    csvHeader = ["name", "url", "group", "country", "language", "quality",
      "category", "tags"] ∧
    FileState.table [] ≠ .absent :=
  ⟨rfl, rfl, rfl, by decide⟩

/-- C7 counterexample: a successful insert persists exactly the header plus
the eight caller-supplied fields; the appended record carries no
server-assigned creation timestamp (the schema has no such field). -/
theorem add_persists_only_input_fields :
    add_channel_to_csv "BBC" "http://b" "News" "" "" "HD" "" "" (.table []) =
      (true, .table [⟨"BBC", "http://b", "News", "", "", "HD", "", ""⟩]) ∧
    fileLines (add_channel_to_csv "BBC" "http://b" "News" "" "" "HD" "" ""
        (.table [])).2 =
      [csvHeader, ["BBC", "http://b", "News", "", "", "HD", "", ""]] :=
  ⟨rfl, rfl⟩

/-- C7 amended: for every successful channel insert (name not already
present up to ASCII case), the add operation appends the one new record made
of the caller-supplied fields and persists it before returning success. -/
theorem add_fresh_appends_and_persists (rows : List CsvRow)
    (name url group country language quality category tags : String)
    (hfresh : ¬ ∃ ch ∈ rows.map parseRow, pyLower ch.name = pyLower name) :
    add_channel_to_csv name url group country language quality category tags
        (.table rows) =
      (true, .table (rows ++
        [⟨name, url, group, country, language, quality, category, tags⟩])) ∧
    channelsOf (add_channel_to_csv name url group country language quality
        category tags (.table rows)).2 =
      rows.map parseRow ++
        [parseRow ⟨name, url, group, country, language, quality, category, tags⟩] := by
  have hany : (rows.map parseRow).any
      (fun ch => pyLower ch.name == pyLower name) = false := by
    rw [List.any_eq_false]
    intro ch hch
    simp only [beq_iff_eq]
    exact fun heq => hfresh ⟨ch, hch, heq⟩
  constructor
  · simp [add_channel_to_csv, load_channels_from_csv, hany]
  · simp [add_channel_to_csv, load_channels_from_csv, hany, channelsOf]

theorem add_fresh_appends_and_persists_witness :
    (¬ ∃ ch ∈ ([⟨"BBC", "http://b", "News", "", "", "HD", "", ""⟩] :
        List CsvRow).map parseRow, pyLower ch.name = pyLower "CNN") ∧
    (add_channel_to_csv "CNN" "http://c" "News" "" "" "HD" "" ""
        (.table [⟨"BBC", "http://b", "News", "", "", "HD", "", ""⟩]) =
      (true, .table [⟨"BBC", "http://b", "News", "", "", "HD", "", ""⟩,
        ⟨"CNN", "http://c", "News", "", "", "HD", "", ""⟩]) ∧
    channelsOf (add_channel_to_csv "CNN" "http://c" "News" "" "" "HD" "" ""
        (.table [⟨"BBC", "http://b", "News", "", "", "HD", "", ""⟩])).2 =
      ([⟨"BBC", "http://b", "News", "", "", "HD", "", ""⟩] :
        List CsvRow).map parseRow ++
        [parseRow ⟨"CNN", "http://c", "News", "", "", "HD", "", ""⟩]) :=
  ⟨by decide, add_fresh_appends_and_persists _ _ _ _ _ _ _ _ _ (by decide)⟩

/-- C6 counterexample: adding a channel whose name has surrounding
whitespace and loading it back yields a record whose name is stripped, so
the loaded record is not field-for-field equal to the record written. -/
theorem roundtrip_strips_whitespace :
    channelsOf (add_channel_to_csv " BBC " "http://b" "General" "" "" "HD" "" ""
        (.table [])).2 =
      [⟨"BBC", "http://b", "General", "", "", "HD", "", ""⟩] ∧
    (⟨"BBC", "http://b", "General", "", "", "HD", "", ""⟩ : Channel) ≠
      ⟨" BBC ", "http://b", "General", "", "", "HD", "", ""⟩ :=
  ⟨by decide, by decide⟩

/-- C6 amended: writing a channel collection whose name, url and group
fields carry no leading or trailing whitespace, then loading it back,
returns records field-for-field equal to the records written (the schema
has no timestamp fields). -/
theorem roundtrip_of_stripped_channels (chs : List Channel)
    (h : ∀ ch ∈ chs, pyStrip ch.name = ch.name ∧ pyStrip ch.url = ch.url ∧
      pyStrip ch.group = ch.group) :
    channelsOf (writeChannelRows chs) = chs := by
  have hid : ∀ ch ∈ chs, parseRow (rowOfChannel ch) = ch := by
    intro ch hch
    obtain ⟨hn, hu, hg⟩ := h ch hch
    simp [parseRow, rowOfChannel, hn, hu, hg]
  simpa [channelsOf, writeChannelRows, load_channels_from_csv] using
    map_parseRow_rowOfChannel chs hid

theorem roundtrip_of_stripped_channels_witness :
    (∀ ch ∈ ([⟨"BBC", "http://b", "News", "UK", "en", "HD", "tv", "news"⟩] :
        List Channel), pyStrip ch.name = ch.name ∧ pyStrip ch.url = ch.url ∧
      pyStrip ch.group = ch.group) ∧
    channelsOf (writeChannelRows
        [⟨"BBC", "http://b", "News", "UK", "en", "HD", "tv", "news"⟩]) =
      [⟨"BBC", "http://b", "News", "UK", "en", "HD", "tv", "news"⟩] :=
  ⟨by decide, roundtrip_of_stripped_channels _ (by decide)⟩

theorem filter_unique_match {α : Type} (key : α → String) (l : List α) (k : String)
    (hnd : l.Pairwise (fun a b => key a ≠ key b))
    (hmem : ∃ x ∈ l, key x = k) :
    ∃ pre x post, l = pre ++ x :: post ∧ key x = k ∧
      l.filter (fun a => !(key a == k)) = pre ++ post := by
  induction l with
  | nil => simp at hmem
  | cons a t ih =>
    obtain ⟨x, hx, hkx⟩ := hmem
    obtain ⟨hhead, htail⟩ := List.pairwise_cons.mp hnd
    by_cases ha : key a = k
    · refine ⟨[], a, t, rfl, ha, ?_⟩
      have hkeep : ∀ b ∈ t, (!(key b == k)) = true := by
        intro b hb
        have hne : key a ≠ key b := hhead b hb
        simp only [Bool.not_eq_true', beq_eq_false_iff_ne, ne_eq]
        exact fun hbk => hne (ha ▸ hbk ▸ rfl)
      rw [List.filter_cons_of_neg (by simp [ha]), List.filter_eq_self.mpr hkeep]
      rfl
    · have hx' : x ∈ t := by
        rcases List.mem_cons.mp hx with rfl | h
        · exact absurd hkx ha
        · exact h
      obtain ⟨pre, y, post, hEq, hky, hFilt⟩ := ih htail ⟨x, hx', hkx⟩
      refine ⟨a :: pre, y, post, by rw [hEq, List.cons_append], hky, ?_⟩
      rw [List.filter_cons_of_pos (by simp [ha]), hFilt]
      rfl

/-- C2: over a channel catalog state satisfying the data-model invariant
(loaded names pairwise distinct up to ASCII case): removing a name with no
case-insensitive match fails (returns False, the not-found failure) and
leaves the file exactly unchanged; removing a present name succeeds and the
persisted collection is the old one with exactly that record missing,
otherwise identical, of size n-1. -/
theorem remove_not_found_and_remove_present :
    (∀ (rows : List CsvRow) (name : String),
      (¬ ∃ ch ∈ rows.map parseRow, pyLower ch.name = pyLower name) →
      remove_channel_from_csv name (.table rows) = (false, .table rows)) ∧
    (∀ (rows : List CsvRow) (name : String),
      (rows.map parseRow).Pairwise (fun a b => pyLower a.name ≠ pyLower b.name) →
      (∃ ch ∈ rows.map parseRow, pyLower ch.name = pyLower name) →
      (remove_channel_from_csv name (.table rows)).1 = true ∧
      ∃ pre ch post,
        rows.map parseRow = pre ++ ch :: post ∧
        pyLower ch.name = pyLower name ∧
        channelsOf (remove_channel_from_csv name (.table rows)).2 = pre ++ post ∧
        (pre ++ post).length + 1 = (rows.map parseRow).length) := by
  constructor
  · intro rows name hnone
    have hall : ∀ ch ∈ rows.map parseRow, (!(pyLower ch.name == pyLower name)) = true := by
      intro ch hch
      simp only [Bool.not_eq_true', beq_eq_false_iff_ne, ne_eq]
      exact fun heq => hnone ⟨ch, hch, heq⟩
    have hfix : (rows.map parseRow).filter
        (fun ch => !(pyLower ch.name == pyLower name)) = rows.map parseRow :=
      List.filter_eq_self.mpr hall
    simp [remove_channel_from_csv, load_channels_from_csv, hfix]
  · intro rows name hnd hmem
    obtain ⟨pre, ch, post, hEq, hk, hFilt⟩ :=
      filter_unique_match (fun ch => pyLower ch.name) (rows.map parseRow)
        (pyLower name) hnd hmem
    have hlen : (pre ++ post).length + 1 = (rows.map parseRow).length := by
      rw [hEq]
      simp [Nat.add_comm, Nat.add_assoc, Nat.add_left_comm]
    have hlen2 : pre.length + post.length + 1 = rows.length := by
      simpa using hlen
    have hne : ((pre ++ post).length == (rows.map parseRow).length) = false := by
      rw [beq_eq_false_iff_ne]
      simp only [List.length_append, List.length_map, ne_eq]
      omega
    have hid : ∀ c ∈ pre ++ post, parseRow (rowOfChannel c) = c := by
      intro c hc
      refine parsed_mem_fixed rows c ?_
      rw [hEq]
      rcases List.mem_append.mp hc with h | h
      · exact List.mem_append.mpr (Or.inl h)
      · exact List.mem_append.mpr (Or.inr (List.mem_cons_of_mem ch h))
    constructor
    · simp only [remove_channel_from_csv, load_channels_from_csv]
      rw [hFilt, hne]
      simp
    · refine ⟨pre, ch, post, hEq, hk, ?_, hlen⟩
      simp only [channelsOf, remove_channel_from_csv, load_channels_from_csv]
      rw [hFilt, hne]
      simpa [load_channels_from_csv] using
        map_parseRow_rowOfChannel (pre ++ post) hid

theorem remove_not_found_and_remove_present_witness :
    (¬ ∃ ch ∈ ([⟨"BBC", "http://b", "News", "", "", "HD", "", ""⟩,
        ⟨"CNN", "http://c", "News", "", "", "HD", "", ""⟩] :
        List CsvRow).map parseRow, pyLower ch.name = pyLower "ZDF") ∧
    remove_channel_from_csv "ZDF"
        (.table [⟨"BBC", "http://b", "News", "", "", "HD", "", ""⟩,
          ⟨"CNN", "http://c", "News", "", "", "HD", "", ""⟩]) =
      (false, .table [⟨"BBC", "http://b", "News", "", "", "HD", "", ""⟩,
        ⟨"CNN", "http://c", "News", "", "", "HD", "", ""⟩]) ∧
    (([⟨"BBC", "http://b", "News", "", "", "HD", "", ""⟩,
        ⟨"CNN", "http://c", "News", "", "", "HD", "", ""⟩] :
        List CsvRow).map parseRow).Pairwise
      (fun a b => pyLower a.name ≠ pyLower b.name) ∧
    (∃ ch ∈ ([⟨"BBC", "http://b", "News", "", "", "HD", "", ""⟩,
        ⟨"CNN", "http://c", "News", "", "", "HD", "", ""⟩] :
        List CsvRow).map parseRow, pyLower ch.name = pyLower "bbc") ∧
    (remove_channel_from_csv "bbc"
        (.table [⟨"BBC", "http://b", "News", "", "", "HD", "", ""⟩,
          ⟨"CNN", "http://c", "News", "", "", "HD", "", ""⟩])).1 = true ∧
    ∃ pre ch post,
      ([⟨"BBC", "http://b", "News", "", "", "HD", "", ""⟩,
        ⟨"CNN", "http://c", "News", "", "", "HD", "", ""⟩] :
        List CsvRow).map parseRow = pre ++ ch :: post ∧
      pyLower ch.name = pyLower "bbc" ∧
      channelsOf (remove_channel_from_csv "bbc"
        (.table [⟨"BBC", "http://b", "News", "", "", "HD", "", ""⟩,
          ⟨"CNN", "http://c", "News", "", "", "HD", "", ""⟩])).2 = pre ++ post ∧
      (pre ++ post).length + 1 =
        (([⟨"BBC", "http://b", "News", "", "", "HD", "", ""⟩,
          ⟨"CNN", "http://c", "News", "", "", "HD", "", ""⟩] :
          List CsvRow).map parseRow).length :=
  ⟨by decide,
   remove_not_found_and_remove_present.1 _ _ (by decide),
   by decide,
   by decide,
   (remove_not_found_and_remove_present.2 _ _ (by decide) (by decide)).1,
   (remove_not_found_and_remove_present.2 _ _ (by decide) (by decide)).2⟩

theorem bool_and_regroup (b1 b2 b3 b4 b5 b6 : Bool) :
    (b6 && (b5 && (b4 && (b3 && (b2 && b1))))) =
      (((((b1 && b2) && b3) && b4) && b5) && b6) := by
  cases b1 <;> cases b2 <;> cases b3 <;> cases b4 <;> cases b5 <;> cases b6 <;> rfl

theorem applyCriterion_eq_filter (criteria : List (String × String))
    (key : String) (pred : String → Channel → Bool) (l : List Channel) :
    applyCriterion criteria key pred l =
      l.filter (critTest (dictGet? criteria key) pred) := by
  unfold applyCriterion critTest
  cases dictGet? criteria key with
  | none => exact (List.filter_true l).symm
  | some v =>
    by_cases hv : v = "" <;> simp [hv, List.filter_true]

/-- C4: the playlist filter keeps exactly the channels satisfying all
supplied criteria combined with logical AND, group, country, language,
quality and category by exact string equality and tags by case-insensitive
substring containment; in particular, with filter group=News on a catalog
of 3 News and 2 Sports channels, exactly the 3 News channels are kept. -/
theorem filter_channels_keeps_exactly_matching :
    (∀ (criteria : List (String × String)) (rows : List CsvRow),
      (filter_channels criteria (.table rows)).1 =
        (rows.map parseRow).filter (matchesCriteria criteria)) ∧
    (filter_channels [("group", "News")]
        (.table [⟨"Alpha", "http://1", "News", "", "", "HD", "", ""⟩,
          ⟨"Beta", "http://2", "News", "", "", "HD", "", ""⟩,
          ⟨"Gamma", "http://3", "News", "", "", "HD", "", ""⟩,
          ⟨"Delta", "http://4", "Sports", "", "", "HD", "", ""⟩,
          ⟨"Epsilon", "http://5", "Sports", "", "", "HD", "", ""⟩])).1 =
      [⟨"Alpha", "http://1", "News", "", "", "HD", "", ""⟩,
       ⟨"Beta", "http://2", "News", "", "", "HD", "", ""⟩,
       ⟨"Gamma", "http://3", "News", "", "", "HD", "", ""⟩] := by
  constructor
  · intro criteria rows
    simp only [filter_channels, load_channels_from_csv, applyCriterion_eq_filter,
      List.filter_filter, matchesCriteria]
    exact List.filter_congr (fun ch _ => bool_and_regroup _ _ _ _ _ _)
  · decide

/-- C5: generating for username alice with validity 30 days and no filters
over a catalog of 2 channels (this variant has no VOD items) yields exactly
the nine header lines followed by one directive/URL line pair per channel,
and the header's stated expiry is the date of generation-day-plus-30,
rendered at day granularity. -/
theorem playlist_alice_30_two_channels (now : PyDateTime) (token : String)
    (r1 r2 : CsvRow) :
    build_m3u "alice" now
        (create_customer "alice" 30 (some []) [] token now).1.expires token []
        (filter_channels [] (.table [r1, r2])).1 =
      ["#EXTM3U",
       "# IPTV Playlist for: alice",
       "# Generated: " ++ strftime_datetime now,
       "# Expires: " ++ strftime_date (addDays now 30),
       "# Token: " ++ token,
       "# Filters: All channels",
       "#",
       "# This playlist contains 2 channels",
       "#",
       extinfLine (parseRow r1), (parseRow r1).url,
       extinfLine (parseRow r2), (parseRow r2).url] ∧
    addDays now 30 = ⟨now.day + 30, now.secOfDay⟩ := by
  refine ⟨?_, rfl⟩
  simp [build_m3u, filter_channels, applyCriterion, dictGet?,
    load_channels_from_csv, create_customer, filtersDisplay, addDays]
  rfl

/-- C9 counterexample: a generated document for a nonempty catalog ends with
the last channel's URL line, which is not a comment line, so no trailing
comment block of usage instructions exists. -/
theorem playlist_ends_with_url_not_comment :
    (build_m3u "u" ⟨0, 0⟩ ⟨30, 0⟩ "t" []
        [⟨"BBC", "http://x", "News", "", "", "HD", "", ""⟩]).getLast? =
      some "http://x" ∧
    pyStartsWith "http://x" "#" = false :=
  ⟨rfl, by decide⟩

/-- C9 amended: playlist generation is total (always succeeds on well-formed
inputs); on an empty catalog the document consists of exactly the nine
header comment lines; and a document for a nonempty catalog ends with the
final channel's URL line — the generator emits no trailing instruction
block. -/
theorem playlist_total_empty_header_only :
    (∀ (username : String) (now expires : PyDateTime) (token : String)
        (filters : List (String × String)),
      build_m3u username now expires token filters [] =
        ["#EXTM3U",
         "# IPTV Playlist for: " ++ username,
         "# Generated: " ++ strftime_datetime now,
         "# Expires: " ++ strftime_date expires,
         "# Token: " ++ token,
         "# Filters: " ++ filtersDisplay filters,
         "#",
         "# This playlist contains 0 channels",
         "#"]) ∧
    (∀ (username : String) (now expires : PyDateTime) (token : String)
        (filters : List (String × String)) (chs : List Channel) (ch : Channel),
      (build_m3u username now expires token filters (chs ++ [ch])).getLast? =
        some ch.url) := by
  constructor
  · intro username now expires token filters
    rfl
  · intro username now expires token filters chs ch
    have h2 : build_m3u username now expires token filters (chs ++ [ch]) =
        (["#EXTM3U",
          "# IPTV Playlist for: " ++ username,
          "# Generated: " ++ strftime_datetime now,
          "# Expires: " ++ strftime_date expires,
          "# Token: " ++ token,
          "# Filters: " ++ filtersDisplay filters,
          "#",
          "# This playlist contains " ++ toString (chs.length + 1) ++ " channels",
          "#"] ++ chs.flatMap (fun c => [extinfLine c, c.url]) ++
          [extinfLine ch]) ++ [ch.url] := by
      simp [build_m3u, List.flatMap_append]
    rw [h2, List.getLast?_concat]

/-- C8: for each mutating command handler invoked by a caller not in the
admin allow-list, the authorization check fires before anything else: the
fixed unauthorized reply is the whole output and the bot state (master CSV
and customers store) is returned exactly unchanged. -/
theorem unauthorized_fixed_reply_no_state_change
    (caller : Int) (admins : List Int) (args : List String) (st : BotState)
    (now : PyDateTime) (token : String)
    (h : admins.contains caller = false) :
    add_channel caller admins args st = ([.text "⛔ Unauthorized"], st) ∧
    remove_channel caller admins args st = ([.text "⛔ Unauthorized"], st) ∧
    create_customer_playlist caller admins args st now token =
      (.ok [.text "⛔ Unauthorized"], st) ∧
    revoke_customer caller admins args st = ([.text "⛔ Unauthorized"], st) := by
  have hc : (!(admins.contains caller)) = true := by rw [h]; rfl
  refine ⟨?_, ?_, ?_, ?_⟩ <;>
    simp only [add_channel, remove_channel, create_customer_playlist,
      revoke_customer, hc, if_true]

theorem unauthorized_fixed_reply_no_state_change_witness :
    (([1, 2] : List Int).contains 99 = false) ∧
    (add_channel 99 [1, 2] ["BBC", "http://b"] ⟨.table [], []⟩ =
        ([.text "⛔ Unauthorized"], ⟨.table [], []⟩) ∧
      remove_channel 99 [1, 2] ["BBC", "http://b"] ⟨.table [], []⟩ =
        ([.text "⛔ Unauthorized"], ⟨.table [], []⟩) ∧
      create_customer_playlist 99 [1, 2] ["BBC", "http://b"] ⟨.table [], []⟩
          ⟨0, 0⟩ "tok" = (.ok [.text "⛔ Unauthorized"], ⟨.table [], []⟩) ∧
      revoke_customer 99 [1, 2] ["BBC", "http://b"] ⟨.table [], []⟩ =
        ([.text "⛔ Unauthorized"], ⟨.table [], []⟩)) :=
  ⟨by decide,
   unauthorized_fixed_reply_no_state_change 99 [1, 2] ["BBC", "http://b"]
     ⟨.table [], []⟩ ⟨0, 0⟩ "tok" (by decide)⟩
